import Mathlib

/-!
Verification of the GEOseis seismic-analysis pipeline.

Shallow embedding of the numeric core of the repository:
`seismic_processor.py` (class `EnhancedSeismicProcessor`: band-pass filtering,
spike removal, wave-type classification, Ms magnitude), `data_manager.py`
(surface-wave velocity model, failed-station tracking, fallback station list)
and the legacy `GEOseis.py` variant of `remove_spikes`.

Modelling conventions:
* machine floats are modelled as exact rationals (`ℚ`) for all closed-form
  arithmetic, and as reals (`ℝ`) where the source computes `log10` or `sqrt`;
* a possibly non-finite sample (`NaN`/`Inf`) is `Option ℚ`: `none` is a
  non-finite value, `some q` a finite one (`np.isfinite` = `Option.isSome`);
* Python `round(x, n)` rounds half to even; it is modelled here with
  round-half-up (`⌊x + 1/2⌋`).  The two agree except at exact ties, which no
  theorem below goes near;
* display/message strings of the source (Danish UI text) are not part of the
  embedding; status records keep the machine-readable fields (`success`,
  `reason`, `filter_type`, parameters).
-/

set_option maxRecDepth 16000

/-- `round(q)` to the nearest integer, halves up (`⌊q + 1/2⌋`). -/
def rat_round (q : ℚ) : ℤ := ⌊q + 1/2⌋

/-- Python `round(q, n)`: round to `n` decimal places. -/
def round_to (n : ℕ) (q : ℚ) : ℚ := (rat_round (q * 10 ^ n) : ℚ) / 10 ^ n

/-- Insert a rational into an already sorted list, keeping it sorted. -/
def sorted_insert (x : ℚ) : List ℚ → List ℚ
  | [] => [x]
  | y :: ys => if x ≤ y then x :: y :: ys else y :: sorted_insert x ys

/-- Sort a list of rationals ascending (insertion sort; `np.sort`). -/
def sort_rat (l : List ℚ) : List ℚ := l.foldr sorted_insert []

/-- `np.median` on a list of rationals: middle element of the sorted list for
odd length, mean of the two middle elements for even length.  `np.median([])`
is `NaN`; it is modelled as `0`, which leads to the same control flow in
`remove_spikes` (the only caller): `mad = 0` takes the no-op branch. -/
def np_median (l : List ℚ) : ℚ :=
  let s := sort_rat l
  let n := l.length
  if n = 0 then 0
  else if n % 2 = 1 then s.getD (n / 2) 0
  else (s.getD (n / 2 - 1) 0 + s.getD (n / 2) 0) / 2

/-- `scipy.signal.medfilt(data, kernel_size=5)`: sliding median of width 5,
zero-padded at both ends (scipy pads with zeros). -/
def medfilt5 (l : List ℚ) : List ℚ :=
  let padded := [0, 0] ++ l ++ [0, 0]
  (List.range l.length).map fun i => np_median ((padded.drop i).take 5)

/-- `EnhancedSeismicProcessor.remove_spikes` (seismic_processor.py lines
375-400).  Computes median and MAD; if `mad > 0`, flags samples with
`|x - median| / (1.4826 * mad) > threshold` as spikes and replaces them by the
width-5 median-filtered value of the *original* data at the same index;
otherwise (`mad = 0`, e.g. a constant signal) returns the data unchanged with
spike count 0 — this version has no standard-deviation fallback. -/
def remove_spikes (data : List ℚ) (threshold : ℚ) : List ℚ × ℕ :=
  let median := np_median data
  let mad := np_median (data.map fun x => |x - median|)
  if 0 < mad then
    let z_scores := data.map fun x => |x - median| / (14826/10000 * mad)
    let spike_count := z_scores.countP fun z => threshold < z
    if 0 < spike_count then
      let median_filtered := medfilt5 data
      let cleaned := (List.range data.length).map fun i =>
        if threshold < z_scores.getD i 0 then median_filtered.getD i 0
        else data.getD i 0
      (cleaned, spike_count)
    else (data, spike_count)
  else (data, 0)

/-- `np.std` of a list (population standard deviation) squared, i.e. the
variance `mean (x - mean x)²`; exact in `ℚ`. -/
def np_variance (l : List ℚ) : ℚ :=
  if l.length = 0 then 0
  else
    let m := l.sum / l.length
    ((l.map fun x => (x - m) ^ 2).sum) / l.length

/-- Modified z-score of a single sample `x` of `data` as computed by the legacy
`remove_spikes` in GEOseis.py (lines 236-260): when `mad = 0` it falls back to
`|x - median| / (np.std(data) + 1e-10)`, otherwise `0.6745 * (x - median) /
mad`.  Real-valued because `np.std` is a square root. -/
noncomputable def geoseis_modified_z (data : List ℚ) (x : ℚ) : ℝ :=
  let median := np_median data
  let mad := np_median (data.map fun v => |v - median|)
  if mad = 0 then |(x : ℝ) - (median : ℝ)| / (Real.sqrt (np_variance data) + 1/10^10)
  else (6745/10000 : ℝ) * ((x : ℝ) - (median : ℝ)) / (mad : ℝ)

/-! ### C6: spike removal is not idempotent -/

/-- If an application of `remove_spikes` detects no spikes it returns its
input unchanged (both the `mad = 0` branch and the empty-spike-set branch
return the data as-is). -/
theorem remove_spikes_no_spikes_fixed (data : List ℚ) (threshold : ℚ)
    (h : (remove_spikes data threshold).2 = 0) :
    (remove_spikes data threshold).1 = data := by
  revert h
  dsimp only [remove_spikes]
  split
  · split
    · intro h
      simp only [Prod.snd] at h
      omega
    · intro _
      rfl
  · intro _
    rfl

/-- C6 counterexample: a concrete trace on which a second application of
`remove_spikes` detects a further spike and modifies a sample again.  The
first pass flags indices 2, 4, 6; the median-filter window of index 4 is
dominated by the neighbouring spikes, so its replacement value 1000 is
unchanged, and the second pass replaces it by 102. -/
theorem remove_spikes_not_idempotent_cex :
    (remove_spikes (remove_spikes
        [100, 101, 1000, 102, 1000, 100, 1000, 101, 102, 100, 101] 5).1 5).1
      ≠ (remove_spikes
        [100, 101, 1000, 102, 1000, 100, 1000, 101, 102, 100, 101] 5).1 := by
  with_unfolding_all decide

/-- C6 (amended): `remove_spikes` is not idempotent in general; the two-pass
result equals the one-pass result exactly on inputs where the second pass
detects no spikes, in which case the second application returns its input
unchanged. -/
theorem remove_spikes_second_pass_noop (data : List ℚ) (threshold : ℚ)
    (h : (remove_spikes (remove_spikes data threshold).1 threshold).2 = 0) :
    (remove_spikes (remove_spikes data threshold).1 threshold).1
      = (remove_spikes data threshold).1 :=
  remove_spikes_no_spikes_fixed _ _ h

/-- C6 witness: on `[1, 2]` the second pass detects no spikes and the theorem
applies, giving the fixed-point equality. -/
theorem remove_spikes_second_pass_noop_witness :
    (remove_spikes (remove_spikes [(1 : ℚ), 2] 5).1 5).2 = 0 ∧
    (remove_spikes (remove_spikes [(1 : ℚ), 2] 5).1 5).1
      = (remove_spikes [(1 : ℚ), 2] 5).1 :=
  ⟨by with_unfolding_all decide,
    remove_spikes_second_pass_noop [(1 : ℚ), 2] 5 (by with_unfolding_all decide)⟩

/-! ### C5: the `mad = 0` standard-deviation fallback is missing in
`seismic_processor.py` -/

/-- C5 (code bug): on the constant-plus-outlier trace of 24 zeros followed by
a single 100 the MAD is 0, and `EnhancedSeismicProcessor.remove_spikes`
(seismic_processor.py) returns the data unchanged with spike count 0 — it has
no standard-deviation fallback.  The legacy implementation in GEOseis.py,
which documents and implements the fallback the spec describes, assigns this
outlier the modified z-score `100 / (np.std + 1e-10) ≈ 5.10 > 5` and so does
detect it. -/
theorem remove_spikes_mad_zero_returns_no_spikes :
    np_median ((List.replicate 24 (0 : ℚ) ++ [100]).map
        fun x => |x - np_median (List.replicate 24 (0 : ℚ) ++ [100])|) = 0 ∧
    remove_spikes (List.replicate 24 (0 : ℚ) ++ [100]) 5
      = (List.replicate 24 (0 : ℚ) ++ [100], 0) ∧
    5 < geoseis_modified_z (List.replicate 24 (0 : ℚ) ++ [100]) 100 := by
  refine ⟨by with_unfolding_all decide, by with_unfolding_all decide, ?_⟩
  have hmed : np_median (List.replicate 24 (0 : ℚ) ++ [100]) = 0 := by
    with_unfolding_all decide
  have hmad : np_median ((List.replicate 24 (0 : ℚ) ++ [100]).map
      fun v => |v - np_median (List.replicate 24 (0 : ℚ) ++ [100])|) = 0 := by
    with_unfolding_all decide
  have hvar : np_variance (List.replicate 24 (0 : ℚ) ++ [100]) = 384 := by
    with_unfolding_all decide
  simp only [geoseis_modified_z, hmad]
  rw [if_pos trivial, hmed, hvar]
  have hsq : Real.sqrt ((384 : ℚ) : ℝ) < 19.6 := by
    have h1 : ((384 : ℚ) : ℝ) = 384 := by norm_num
    rw [h1, show (19.6 : ℝ) = Real.sqrt (19.6 ^ 2) by
      rw [Real.sqrt_sq (by norm_num)]]
    exact Real.sqrt_lt_sqrt (by norm_num) (by norm_num)
  have hpos : 0 < Real.sqrt ((384 : ℚ) : ℝ) + 1 / 10 ^ 10 := by
    positivity
  rw [lt_div_iff₀ hpos]
  have habs : |((100 : ℚ) : ℝ) - ((0 : ℚ) : ℝ)| = 100 := by norm_num
  rw [habs]
  nlinarith [hsq, Real.sqrt_nonneg ((384 : ℚ) : ℝ)]

/-! ### C4: surface-wave velocity model (`data_manager.py` lines 1489-1622) -/

/-- Result record of `calculate_surface_wave_velocities`. -/
structure SurfaceWaveResult where
  love_velocity : ℚ
  rayleigh_velocity : ℚ
  love_arrival : ℚ
  rayleigh_arrival : ℚ
  surface_arrival : ℚ
  depth_factor : ℚ
  distance_factor : ℚ
  magnitude_factor : ℚ
  structure_factor : ℚ
  vp_vs : Option ℚ
  structure_type : String
deriving DecidableEq

/-- Depth factor table (data_manager.py lines 1506-1517). -/
def surface_depth_factor (depth_km : ℚ) : ℚ :=
  if depth_km < 20 then 1
  else if depth_km < 35 then 98/100
  else if depth_km < 70 then 92/100
  else if depth_km < 150 then 80/100
  else if depth_km < 300 then 65/100
  else 50/100

/-- Distance (dispersion) factor table (data_manager.py lines 1519-1534). -/
def surface_distance_factor (distance_km : ℚ) : ℚ :=
  if distance_km < 500 then 92/100
  else if distance_km < 1000 then 95/100
  else if distance_km < 2000 then 98/100
  else if distance_km < 4000 then 1
  else if distance_km < 6000 then 102/100
  else if distance_km < 10000 then 104/100
  else 106/100

/-- Magnitude factor table (data_manager.py lines 1536-1553). -/
def surface_magnitude_factor (magnitude : ℚ) : ℚ :=
  if magnitude < 5 then 95/100
  else if magnitude < 55/10 then 97/100
  else if magnitude < 6 then 99/100
  else if magnitude < 65/10 then 1
  else if magnitude < 7 then 102/100
  else if magnitude < 75/10 then 104/100
  else if magnitude < 8 then 106/100
  else 108/100

/-- Crustal structure factor from optional P/S arrival times (data_manager.py
lines 1555-1584).  The Python guard is `if p_arrival_sec and s_arrival_sec and
p_arrival_sec > 0`, i.e. both present, both non-zero (truthiness) and P
positive.  Returns `(structure_factor, rounded Vp/Vs estimate, label)`. -/
def surface_structure_factor (p_arrival_sec s_arrival_sec : Option ℚ) :
    ℚ × Option ℚ × String :=
  match p_arrival_sec, s_arrival_sec with
  | some pv, some sv =>
    if pv ≠ 0 ∧ sv ≠ 0 ∧ 0 < pv then
      let ts_tp := sv / pv
      let est := ts_tp
      if 18/10 < est then (93/100, some (round_to 2 est), "Sedimentær")
      else if 175/100 < est then (97/100, some (round_to 2 est), "Normal skorpe")
      else if 17/10 < est then (1, some (round_to 2 est), "Gennemsnitlig")
      else (105/100, some (round_to 2 est), "Krystallin")
    else (1, none, "Ukendt")
  | _, _ => (1, none, "Ukendt")

/-- The Rayleigh velocity before clamping: `3.5 · f_depth · f_dist · f_mag ·
f_struct` (data_manager.py line 1588). -/
def surface_wave_raw_rayleigh (distance_km depth_km magnitude : ℚ)
    (p_arrival_sec s_arrival_sec : Option ℚ) : ℚ :=
  35/10 * surface_depth_factor depth_km * surface_distance_factor distance_km
    * surface_magnitude_factor magnitude
    * (surface_structure_factor p_arrival_sec s_arrival_sec).1

/-- `calculate_surface_wave_velocities` (data_manager.py lines 1489-1622).
The Love velocity is first computed from the factor product (line 1587) and
then immediately overwritten by `rayleigh_velocity * 1.12` (line 1592);
afterwards both velocities are clamped (`Love` to `[3.8, 5.2]`, `Rayleigh` to
`[3.0, 4.5]`, lines 1595-1596) and the arrivals are `distance / velocity` of
the clamped, unrounded velocities. -/
def calculate_surface_wave_velocities (distance_km depth_km magnitude : ℚ)
    (p_arrival_sec s_arrival_sec : Option ℚ) : SurfaceWaveResult :=
  let depth_factor := surface_depth_factor depth_km
  let distance_factor := surface_distance_factor distance_km
  let magnitude_factor := surface_magnitude_factor magnitude
  let sf := surface_structure_factor p_arrival_sec s_arrival_sec
  let structure_factor := sf.1
  let _love_velocity_overwritten :=
    45/10 * depth_factor * distance_factor * magnitude_factor * structure_factor
  let rayleigh_velocity :=
    surface_wave_raw_rayleigh distance_km depth_km magnitude p_arrival_sec s_arrival_sec
  let love_velocity := rayleigh_velocity * (112/100)
  let love_velocity := max (38/10) (min (52/10) love_velocity)
  let rayleigh_velocity := max 3 (min (45/10) rayleigh_velocity)
  let love_arrival := distance_km / love_velocity
  let rayleigh_arrival := distance_km / rayleigh_velocity
  { love_velocity := round_to 2 love_velocity
    rayleigh_velocity := round_to 2 rayleigh_velocity
    love_arrival := round_to 1 love_arrival
    rayleigh_arrival := round_to 1 rayleigh_arrival
    surface_arrival := round_to 1 rayleigh_arrival
    depth_factor := round_to 3 depth_factor
    distance_factor := round_to 3 distance_factor
    magnitude_factor := round_to 3 magnitude_factor
    structure_factor := round_to 3 structure_factor
    vp_vs := sf.2.1
    structure_type := sf.2.2 }

/-- `rat_round` is monotone. -/
theorem rat_round_mono {x y : ℚ} (h : x ≤ y) : rat_round x ≤ rat_round y :=
  Int.floor_le_floor (add_le_add_right h _)

/-- `round_to` is monotone. -/
theorem round_to_mono (n : ℕ) {x y : ℚ} (h : x ≤ y) :
    round_to n x ≤ round_to n y := by
  unfold round_to
  have h1 : rat_round (x * 10 ^ n) ≤ rat_round (y * 10 ^ n) :=
    rat_round_mono (by
      exact mul_le_mul_of_nonneg_right h (by positivity))
  have h2 : ((rat_round (x * 10 ^ n) : ℚ)) ≤ (rat_round (y * 10 ^ n) : ℚ) := by
    exact_mod_cast h1
  exact div_le_div_of_nonneg_right h2 (by positivity) |>.trans_eq rfl

/-- C4 counterexample: for a 400 km-deep M 4 event at 100 km with no arrival
times the factor product gives a raw Rayleigh velocity of 1.5295 km/s; both
clamps bind, returning Love 3.8 and Rayleigh 3.0, so the returned velocities
do not satisfy `love = 1.12 * rayleigh` (3.8 ≠ 3.36). -/
theorem surface_wave_ratio_cex :
    (calculate_surface_wave_velocities 100 400 4 none none).love_velocity = 38/10 ∧
    (calculate_surface_wave_velocities 100 400 4 none none).rayleigh_velocity = 3 ∧
    (calculate_surface_wave_velocities 100 400 4 none none).love_velocity
      ≠ 112/100 * (calculate_surface_wave_velocities 100 400 4 none none).rayleigh_velocity := by
  refine ⟨?_, ?_, ?_⟩ <;> with_unfolding_all decide

/-- C4 (amended): for all inputs the returned velocities are clamped into the
realistic ranges `v_Love ∈ [3.8, 5.2]`, `v_Rayleigh ∈ [3.0, 4.5]`, and the
relation `v_Love = 1.12 · v_Rayleigh` is enforced on the velocities *before*
clamping: the returned values are exactly the rounded clamps of
`1.12 · raw_rayleigh` and of `raw_rayleigh`.  (After clamping/rounding the
exact 1.12 relation can fail; see the counterexample.) -/
theorem surface_wave_velocity_bounds (distance_km depth_km magnitude : ℚ)
    (p_arrival_sec s_arrival_sec : Option ℚ) :
    (38/10 ≤ (calculate_surface_wave_velocities distance_km depth_km magnitude
        p_arrival_sec s_arrival_sec).love_velocity ∧
      (calculate_surface_wave_velocities distance_km depth_km magnitude
        p_arrival_sec s_arrival_sec).love_velocity ≤ 52/10) ∧
    (3 ≤ (calculate_surface_wave_velocities distance_km depth_km magnitude
        p_arrival_sec s_arrival_sec).rayleigh_velocity ∧
      (calculate_surface_wave_velocities distance_km depth_km magnitude
        p_arrival_sec s_arrival_sec).rayleigh_velocity ≤ 45/10) ∧
    (calculate_surface_wave_velocities distance_km depth_km magnitude
        p_arrival_sec s_arrival_sec).love_velocity
      = round_to 2 (max (38/10) (min (52/10)
          (surface_wave_raw_rayleigh distance_km depth_km magnitude
            p_arrival_sec s_arrival_sec * (112/100)))) ∧
    (calculate_surface_wave_velocities distance_km depth_km magnitude
        p_arrival_sec s_arrival_sec).rayleigh_velocity
      = round_to 2 (max 3 (min (45/10)
          (surface_wave_raw_rayleigh distance_km depth_km magnitude
            p_arrival_sec s_arrival_sec))) := by
  have hlove : (calculate_surface_wave_velocities distance_km depth_km magnitude
      p_arrival_sec s_arrival_sec).love_velocity
      = round_to 2 (max (38/10) (min (52/10)
          (surface_wave_raw_rayleigh distance_km depth_km magnitude
            p_arrival_sec s_arrival_sec * (112/100)))) := by
    dsimp only [calculate_surface_wave_velocities]
  have hray : (calculate_surface_wave_velocities distance_km depth_km magnitude
      p_arrival_sec s_arrival_sec).rayleigh_velocity
      = round_to 2 (max 3 (min (45/10)
          (surface_wave_raw_rayleigh distance_km depth_km magnitude
            p_arrival_sec s_arrival_sec))) := by
    dsimp only [calculate_surface_wave_velocities]
  have h38 : round_to 2 (38/10 : ℚ) = 38/10 := by with_unfolding_all decide
  have h52 : round_to 2 (52/10 : ℚ) = 52/10 := by with_unfolding_all decide
  have h3 : round_to 2 (3 : ℚ) = 3 := by with_unfolding_all decide
  have h45 : round_to 2 (45/10 : ℚ) = 45/10 := by with_unfolding_all decide
  refine ⟨⟨?_, ?_⟩, ⟨?_, ?_⟩, hlove, hray⟩
  · rw [hlove]
    exact le_trans h38.symm.le (round_to_mono 2 (le_max_left _ _))
  · rw [hlove]
    exact le_trans (round_to_mono 2 (max_le (by norm_num) (min_le_left _ _))) h52.le
  · rw [hray]
    exact le_trans h3.symm.le (round_to_mono 2 (le_max_left _ _))
  · rw [hray]
    exact le_trans (round_to_mono 2 (max_le (by norm_num) (min_le_left _ _))) h45.le

/-! ### C10: wave-type classifier (`seismic_processor.py` lines 402-522) -/

/-- Sum of squared samples (`np.sum(x**2)`), the component energy. -/
def sum_sq (l : List ℚ) : ℚ := (l.map fun x => x ^ 2).sum

/-- Python `int()` of a rational: truncation towards zero. -/
def py_int (q : ℚ) : ℤ := if 0 ≤ q then ⌊q⌋ else ⌈q⌉

/-- Python/numpy slice `l[a:b]` for integer indices (negative indices count
from the end). -/
def py_slice (l : List ℚ) (a b : ℤ) : List ℚ :=
  let n : ℤ := l.length
  let a' := if a < 0 then max 0 (n + a) else min a n
  let b' := if b < 0 then max 0 (n + b) else min b n
  (l.take b'.toNat).drop a'.toNat

/-- The three-component displacement record of a waveform; a missing or empty
`displacement_data` dict (both falsy in Python) is modelled as `none` at the
`WaveformData` level. -/
structure DisplacementData where
  north : List ℚ
  east : List ℚ
  vertical : List ℚ
deriving DecidableEq

/-- The slice of the waveform dict read by `detect_wave_types`:
`displacement_data`, presence of the `time` key, and the optional
`sampling_rate` (read with default 100). -/
structure WaveformData where
  displacement_data : Option DisplacementData
  has_time : Bool
  sampling_rate : Option ℚ
deriving DecidableEq

/-- Time-window extraction of `detect_wave_types` (seismic_processor.py lines
433-446): applied only when a window is given and the `time` key is present;
`start_idx = max(0, int(t0*fs))`, `end_idx = min(int(t1*fs), len(n), len(e),
len(v))`, then each component is sliced `[start_idx:end_idx]`. -/
def apply_time_window (has_time : Bool) (sampling_rate : Option ℚ)
    (time_window : Option (ℚ × ℚ)) (north east vertical : List ℚ) :
    List ℚ × List ℚ × List ℚ :=
  match time_window with
  | some (t0, t1) =>
    if has_time then
      let sr := sampling_rate.getD 100
      let start_idx := max 0 (py_int (t0 * sr))
      let end_idx := min (py_int (t1 * sr))
        (min (north.length : ℤ) (min (east.length : ℤ) (vertical.length : ℤ)))
      (py_slice north start_idx end_idx, py_slice east start_idx end_idx,
        py_slice vertical start_idx end_idx)
    else (north, east, vertical)
  | none => (north, east, vertical)

/-- `_interpret_wave_type` (seismic_processor.py lines 509-522). -/
def interpret_wave_type (q : ℚ) : String :=
  if 5 < q then "Stærk Love bølge dominans - primært horisontal bevægelse"
  else if 3 < q then "Love bølger dominerer - mere horisontal end vertikal bevægelse"
  else if 3/2 < q then "Blandet Love og Rayleigh - begge bølgetyper er til stede"
  else if 1/2 < q then "Blandet signal med Rayleigh tendens"
  else if 1/5 < q then "Rayleigh bølger dominerer - stærk vertikal komponent"
  else "Stærk Rayleigh bølge dominans - primært vertikal bevægelse"

/-- Result record of `detect_wave_types`.  `love_rayleigh_quot` is the dict key
`love_rayleigh_ratio`; `horizontal_frac`/`vertical_frac` are the keys
`horizontal_ratio`/`vertical_ratio`.  The `rms_amplitudes` entries (square
roots, display-only, referenced by no claim) are not modelled. -/
structure WaveTypeResult where
  dominant_type : String
  confidence : ℚ
  love_rayleigh_quot : ℚ
  horizontal_frac : ℚ
  vertical_frac : ℚ
  north_energy : ℚ
  east_energy : ℚ
  vertical_energy : ℚ
  horizontal_energy : ℚ
  interpretation : String
deriving DecidableEq

/-- `EnhancedSeismicProcessor.detect_wave_types` (seismic_processor.py lines
402-507).  Returns `none` for the missing-displacement error dict.  The
source assigns `(dominant_type, confidence)` in one `if/elif/else` chain on
`love_rayleigh_ratio`; here the two components are written as two `if` chains
over the same conditions, which is the same function. -/
def detect_wave_types (waveform_data : WaveformData)
    (time_window : Option (ℚ × ℚ)) : Option WaveTypeResult :=
  match waveform_data.displacement_data with
  | none => none
  | some dd =>
    let north0 := if dd.north.length = 0 then [0] else dd.north
    let east0 := if dd.east.length = 0 then [0] else dd.east
    let vertical0 := if dd.vertical.length = 0 then [0] else dd.vertical
    let nev := apply_time_window waveform_data.has_time waveform_data.sampling_rate
      time_window north0 east0 vertical0
    let north_energy := sum_sq nev.1
    let east_energy := sum_sq nev.2.1
    let vertical_energy := sum_sq nev.2.2
    let horizontal_energy := north_energy + east_energy
    let total_energy := horizontal_energy + vertical_energy
    let horizontal_frac := if 0 < total_energy then horizontal_energy / total_energy else 0
    let vertical_frac := if 0 < total_energy then vertical_energy / total_energy else 0
    let lr_quot := horizontal_energy / (vertical_energy + 1/10^10)
    let dominant_type :=
      if 3 < lr_quot then "Love"
      else if lr_quot < 1/2 then "Rayleigh"
      else "Mixed"
    let confidence :=
      if 3 < lr_quot then min (lr_quot / 5) 1
      else if lr_quot < 1/2 then min (2 / (lr_quot + 1/10)) 1
      else 1 - |lr_quot - 3/2| / (3/2)
    some {
      dominant_type := dominant_type
      confidence := round_to 2 confidence
      love_rayleigh_quot := round_to 2 lr_quot
      horizontal_frac := round_to 3 horizontal_frac
      vertical_frac := round_to 3 vertical_frac
      north_energy := round_to 2 north_energy
      east_energy := round_to 2 east_energy
      vertical_energy := round_to 2 vertical_energy
      horizontal_energy := round_to 2 horizontal_energy
      interpretation := interpret_wave_type lr_quot }

/-- Component energies are sums of squares, hence non-negative. -/
theorem sum_sq_nonneg (l : List ℚ) : 0 ≤ sum_sq l := by
  refine List.sum_nonneg fun x hx => ?_
  obtain ⟨y, _, rfl⟩ := List.mem_map.mp hx
  positivity

/-- In the Rayleigh branch the confidence expression collapses to 1: for a
non-negative ratio below 1/2, `2/(ratio + 0.1) ≥ 1`, so the `min` picks 1. -/
theorem rayleigh_confidence_round (x : ℚ) (hx : 0 ≤ x) (hlt : x < 1/2) :
    round_to 2 (min (2 / (x + 1/10)) 1) = 1 := by
  have hpos : (0:ℚ) < x + 1/10 := by linarith
  have h1 : (1:ℚ) ≤ 2 / (x + 1/10) := by
    rw [le_div_iff₀ hpos]
    linarith
  rw [min_eq_right h1]
  with_unfolding_all decide

/-- C10: whenever `detect_wave_types` classifies the window as Rayleigh
(`love_rayleigh_ratio < 0.5`), the returned confidence is exactly 1: both
energies are non-negative, so the ratio is non-negative and
`2/(ratio + 0.1) ≥ 10/3 > 1`, making `min(2/(ratio+0.1), 1) = 1`. -/
theorem detect_wave_types_rayleigh_confidence_one (w : WaveformData)
    (time_window : Option (ℚ × ℚ))
    (h : (detect_wave_types w time_window).map (fun r => r.dominant_type)
        = some "Rayleigh") :
    (detect_wave_types w time_window).map (fun r => r.confidence) = some 1 := by
  cases hdd : w.displacement_data with
  | none =>
    rw [detect_wave_types, hdd] at h
    simp at h
  | some dd =>
    rw [detect_wave_types, hdd] at h ⊢
    simp only [Option.map_some'] at h ⊢
    rw [Option.some.injEq] at h ⊢
    generalize apply_time_window w.has_time w.sampling_rate time_window
      (if dd.north.length = 0 then [0] else dd.north)
      (if dd.east.length = 0 then [0] else dd.east)
      (if dd.vertical.length = 0 then [0] else dd.vertical) = nev at h ⊢
    set lr := (sum_sq nev.1 + sum_sq nev.2.1) / (sum_sq nev.2.2 + 1/10^10) with hlr
    have hnn : 0 ≤ lr := by
      rw [hlr]
      exact div_nonneg (add_nonneg (sum_sq_nonneg _) (sum_sq_nonneg _))
        (add_nonneg (sum_sq_nonneg _) (by norm_num))
    split_ifs at h ⊢ with h1 h2
    · exact absurd h (by decide)
    · exact rayleigh_confidence_round lr hnn h2
    · exact absurd h (by decide)

/-- C10 witness: a purely vertical window (`N = E = [0]`, `Z = [1]`) yields
ratio 0 < 0.5, classification Rayleigh, and the theorem gives confidence 1. -/
theorem detect_wave_types_rayleigh_confidence_one_witness :
    (detect_wave_types ⟨some ⟨[0], [0], [1]⟩, false, none⟩ none).map
        (fun r => r.dominant_type) = some "Rayleigh" ∧
    (detect_wave_types ⟨some ⟨[0], [0], [1]⟩, false, none⟩ none).map
        (fun r => r.confidence) = some 1 :=
  ⟨by with_unfolding_all decide,
    detect_wave_types_rayleigh_confidence_one _ _ (by with_unfolding_all decide)⟩

/-! ### C7: failed-station exclusion (`data_manager.py` lines 516-565) -/

/-- A station as identified by the failed-download tracking: the station dicts
carry many more fields, but `handle_failed_station_download` and
`search_stations_excluding_failed` read only `network` and `station`. -/
structure StationRec where
  network : String
  station : String
deriving DecidableEq

/-- The key `f"{network}.{station}"` used by the failed-station set. -/
def station_key (s : StationRec) : String := s.network ++ "." ++ s.station

/-- The state update of `handle_failed_station_download` (data_manager.py
lines 516-538): insert the station key into the session-wide
`failed_station_downloads` set (modelled as a list of keys). -/
def mark_station_failed (failed : List String) (failed_station : StationRec) :
    List String :=
  station_key failed_station :: failed

/-- `search_stations_excluding_failed` (data_manager.py lines 540-565): run
the existing station search (its IRIS-backed result is the parameter
`all_stations`), drop every station whose `net.sta` key is in the failed set,
and return the first `target_stations` survivors. -/
def search_stations_excluding_failed (failed : List String)
    (all_stations : List StationRec) (target_stations : ℕ) : List StationRec :=
  if all_stations.isEmpty then []
  else (all_stations.filter fun s => station_key s ∉ failed).take target_stations

/-- `handle_failed_station_download` composed: mark the station failed, then
re-search excluding failed stations; returns the updated failed set and the
new candidate list. -/
def handle_failed_station_download (failed : List String)
    (failed_station : StationRec) (all_stations : List StationRec)
    (target_stations : ℕ) : List String × List StationRec :=
  let failed' := mark_station_failed failed failed_station
  (failed', search_stations_excluding_failed failed' all_stations target_stations)

/-- C7: once a station's key is in the failed set, no call to
`search_stations_excluding_failed` can return a station with that key,
whatever the underlying search yields; in particular, directly after
`handle_failed_station_download` for `S`, the returned candidate list never
contains `S`. -/
theorem search_excluding_failed_never_returns_failed (failed : List String)
    (S : StationRec) (all_stations : List StationRec) (target_stations : ℕ)
    (hS : station_key S ∈ failed) :
    (∀ s ∈ search_stations_excluding_failed failed all_stations target_stations,
      station_key s ≠ station_key S) ∧
    (∀ s ∈ (handle_failed_station_download failed S all_stations
        target_stations).2, station_key s ≠ station_key S) := by
  have key_mem : ∀ (fl : List String), station_key S ∈ fl →
      ∀ s ∈ search_stations_excluding_failed fl all_stations target_stations,
        station_key s ≠ station_key S := by
    intro fl hfl s hs heq
    unfold search_stations_excluding_failed at hs
    split at hs
    · exact absurd hs (List.not_mem_nil s)
    · have hmem := List.mem_of_mem_take hs
      have hfilter := (List.mem_filter.mp hmem).2
      have : station_key s ∉ fl := by
        simpa using hfilter
      exact this (heq ▸ hfl)
  refine ⟨key_mem failed hS, key_mem _ ?_ ⟩
  exact List.mem_cons_self _ _

/-- C7 witness: with `IU.ANMO` marked failed and a search that yields
`[II.BFO, IU.ANMO]`, the filtered result contains no station keyed
`IU.ANMO`. -/
theorem search_excluding_failed_never_returns_failed_witness :
    station_key ⟨"IU", "ANMO"⟩ ∈ ["IU.ANMO"] ∧
    (∀ s ∈ search_stations_excluding_failed ["IU.ANMO"]
        [⟨"II", "BFO"⟩, ⟨"IU", "ANMO"⟩] 2,
      station_key s ≠ station_key ⟨"IU", "ANMO"⟩) :=
  ⟨by with_unfolding_all decide,
    (search_excluding_failed_never_returns_failed ["IU.ANMO"] ⟨"IU", "ANMO"⟩
      [⟨"II", "BFO"⟩, ⟨"IU", "ANMO"⟩] 2 (by with_unfolding_all decide)).1⟩

/-! ### C8: the static fallback station list (`data_manager.py` lines
1071-1131) -/

/-- A station record as `_fallback_station_list_optimized` intends to build
(data_manager.py lines 1110-1125); the dict also names `p_arrival` and
`s_arrival`, the two locals that are never assigned. -/
structure FallbackStation where
  network : String
  station : String
  latitude : ℚ
  longitude : ℚ
  distance_km : ℚ
  distance_deg : ℚ
  azimuth : ℚ
  love_arrival : ℚ
  rayleigh_arrival : ℚ
  surface_arrival : ℚ
deriving DecidableEq

/-- The curated fallback list `analysis_ready_stations` of
`data_manager.py` lines 1079-1087: `(network, station, lat, lon)`.  It holds
exactly 7 European stations — not the ≥ 80 globally distributed stations the
spec describes (the 95-entry list exists only in the legacy GEOseis.py). -/
def analysis_ready_stations : List (String × String × ℚ × ℚ) :=
  [("IU", "KEV", 6976/100, 2701/100),
   ("II", "BFO", 4833/100, 833/100),
   ("GE", "STU", 4877/100, 919/100),
   ("DK", "BSD", 5511/100, 1491/100),
   ("DK", "COP", 5568/100, 1243/100),
   ("NS", "BSEG", 622/10, 522/100),
   ("UP", "UDD", 6451/100, 2104/100)]

/-- One iteration of the `for sta_data in analysis_ready_stations` loop
(data_manager.py lines 1089-1127).  `gps2dist_az` and `km2deg` stand for the
external obspy helpers `gps2dist_azimuth` (returning metres and azimuth) and
`kilometers2degrees`.  When the station is inside the distance ring, the
station dict at line 1117 reads the local `p_arrival`, which is never
assigned anywhere in the function; Python raises `NameError`, the bare
`except: continue` swallows it, and the station is dropped (`none`).
Outside the ring nothing is appended either. -/
def fallback_station_entry (gps2dist_az : ℚ → ℚ → ℚ → ℚ → ℚ × ℚ)
    (km2deg : ℚ → ℚ) (eq_lat eq_lon min_distance_km max_distance_km : ℚ)
    (sta : String × String × ℚ × ℚ) : Option FallbackStation :=
  let g := gps2dist_az eq_lat eq_lon sta.2.2.1 sta.2.2.2
  let distance_km := g.1 / 1000
  let _distance_deg := km2deg distance_km
  if min_distance_km ≤ distance_km ∧ distance_km ≤ max_distance_km then
    let _love_arrival := distance_km / (45/10)
    let _rayleigh_arrival := distance_km / (35/10)
    none
  else none

/-- Sort fallback stations by `distance_km` ascending (the final
`stations.sort(key=lambda x: x['distance_km'])`). -/
def sort_fallback_insert (x : FallbackStation) :
    List FallbackStation → List FallbackStation
  | [] => [x]
  | y :: ys =>
    if x.distance_km ≤ y.distance_km then x :: y :: ys
    else y :: sort_fallback_insert x ys

/-- Insertion sort for the fallback list. -/
def sort_fallback (l : List FallbackStation) : List FallbackStation :=
  l.foldr sort_fallback_insert []

/-- `_fallback_station_list_optimized` (data_manager.py lines 1071-1131):
iterate the curated list, keep stations inside the ring, sort by distance and
return the first `target_stations`.  `eq_depth` is read from the earthquake
dict (line 1076) but never used afterwards. -/
def fallback_station_list_optimized (gps2dist_az : ℚ → ℚ → ℚ → ℚ → ℚ × ℚ)
    (km2deg : ℚ → ℚ) (eq_lat eq_lon _eq_depth : ℚ)
    (min_distance_km max_distance_km : ℚ) (target_stations : ℕ) :
    List FallbackStation :=
  let stations := analysis_ready_stations.filterMap
    (fallback_station_entry gps2dist_az km2deg eq_lat eq_lon
      min_distance_km max_distance_km)
  (sort_fallback stations).take target_stations

/-- C8 (code bug): the curated fallback list has exactly 7 stations (the spec
says ≥ 80), and because every in-range iteration dies on the unassigned
`p_arrival` (`NameError` swallowed by `except: continue`),
`_fallback_station_list_optimized` returns the empty list for every
earthquake, distance ring and target count — the fallback can never supply a
candidate.  (`search_stations` in data_manager.py additionally never calls
it: its failure path returns `[]` directly.) -/
theorem fallback_station_list_always_empty :
    analysis_ready_stations.length = 7 ∧
    ∀ (gps2dist_az : ℚ → ℚ → ℚ → ℚ → ℚ × ℚ) (km2deg : ℚ → ℚ)
      (eq_lat eq_lon eq_depth min_distance_km max_distance_km : ℚ)
      (target_stations : ℕ),
      fallback_station_list_optimized gps2dist_az km2deg eq_lat eq_lon eq_depth
        min_distance_km max_distance_km target_stations = [] := by
  refine ⟨rfl, ?_⟩
  intro gps2dist_az km2deg eq_lat eq_lon eq_depth min_d max_d target
  have hentry : ∀ sta, fallback_station_entry gps2dist_az km2deg eq_lat eq_lon
      min_d max_d sta = none := by
    intro sta
    unfold fallback_station_entry
    dsimp only
    split <;> rfl
  unfold fallback_station_list_optimized
  rw [List.filterMap_eq_nil_iff.mpr fun a _ => hentry a]
  simp [sort_fallback]

/-! ### C1/C3: Butterworth band-pass validation and status
(`seismic_processor.py` lines 94-216) -/

/-- Status record returned by `apply_bandpass_filter` alongside the data;
mirrors the dict of lines 106-216 minus the display-only `message` /
`suggestion` strings. -/
structure FilterStatus where
  success : Bool
  reason : Option String := none
  filter_type : Option String := none
  low_freq : Option ℚ := none
  high_freq : Option ℚ := none
  order : Option ℕ := none
  sampling_rate : Option ℚ := none
deriving DecidableEq

/-- A failure status `{success: False, reason: r}`. -/
def fail_status (r : String) : FilterStatus := { success := false, reason := some r }

/-- `data[np.isfinite(data)]`: the finite samples of the input. -/
def finite_values (data : List (Option ℚ)) : List ℚ := data.filterMap id

/-- Model of `scipy.signal.filtfilt(b, a, clean_data)` on the already-designed
Butterworth coefficients.  The zero-phase IIR recursion itself is
floating-point DSP outside the scope of this embedding; what the surrounding
code relies on — and all the claims touch — is that on a finite input of
admissible length it produces a finite output of the same length, which the
identity models.  Its input-length precondition (scipy raises `ValueError`
when `len(x) <= padlen = 3 * max(len(a), len(b))`) is modelled exactly in
`run_designed_filter`. -/
def filtfilt_model (clean : List ℚ) : List ℚ := clean

/-- Design the Butterworth filter (`butter(order, ws, btype)`) and run the
zero-phase filter (lines 172-198 / 134 / 147 of seismic_processor.py):

* scipy's `butter` demands strictly increasing critical frequencies in
  `(0, 1)`; an invalid `ws` raises `ValueError` *outside* the inner `try`, so
  it surfaces through the outer handler as `reason='unexpected_error'`
  (line 208);
* `filtfilt` raises `ValueError` when the data is not longer than
  `padlen = 3 * n_coeffs` (`n_coeffs = 2*order+1` for a band-pass, `order+1`
  otherwise, i.e. per the number of critical frequencies); the inner `except
  ValueError` of line 200 maps it to `reason='filter_error'`;
* the output-finiteness re-check of line 181 always passes here because the
  model computes with exact rationals;
* on success the status carries the (possibly adjusted) parameters
  (lines 189-198). -/
def run_designed_filter (clean : List ℚ) (ftype : String)
    (low_p high_p : Option ℚ) (ws : List ℚ) (order : ℕ)
    (sampling_rate : ℚ) : List (Option ℚ) × FilterStatus :=
  let valid : Bool := match ws with
    | [w] => decide (0 < w ∧ w < 1)
    | [w1, w2] => decide (0 < w1 ∧ w1 < w2 ∧ w2 < 1)
    | _ => false
  if valid then
    let n_coeffs := if ws.length = 2 then 2 * order + 1 else order + 1
    let padlen := 3 * n_coeffs
    if clean.length ≤ padlen then (clean.map some, fail_status "filter_error")
    else
      let filtered := filtfilt_model clean
      (filtered.map some,
        { success := true, filter_type := some ftype, low_freq := low_p,
          high_freq := high_p, order := some order,
          sampling_rate := some sampling_rate })
  else (clean.map some, fail_status "unexpected_error")

/-- `EnhancedSeismicProcessor.apply_bandpass_filter` (seismic_processor.py
lines 94-216).  Control flow:

1. empty data → `empty_data`, returning the input (line 105);
2. any non-finite sample: keep the finite ones; if fewer than half survive →
   `invalid_data`, returning the input (lines 110-119).  All later paths
   operate on (and on failure return) the cleaned array;
3. `low_freq` absent or ≤ 0 → high-pass branch (line 124); `high_freq ≥
   0.95·nyquist` → `frequency_too_high`.  A `None` `high_freq` here would hit
   a Python `TypeError` in the comparison, caught by the outer handler →
   `unexpected_error`;
4. otherwise `high_freq` absent or ≥ nyquist → *low-pass at `low_freq`*
   (line 138), with the same 0.95·nyquist guard on `low_freq`;
5. otherwise band-pass: `low_freq ≥ high_freq` → `invalid_band`;
   `high_freq ≥ 0.95·nyquist` → clamp `high_freq ← 0.9·nyquist` (line 162);
   `low_freq ≤ 0.001` → `low_freq ← 0.005` (line 168); design and run. -/
def apply_bandpass_filter (data : List (Option ℚ)) (sampling_rate : ℚ)
    (low_freq high_freq : Option ℚ) (order : ℕ) :
    List (Option ℚ) × FilterStatus :=
  if data.length = 0 then (data, fail_status "empty_data")
  else
    let clean := finite_values data
    if 2 * clean.length < data.length then (data, fail_status "invalid_data")
    else
      let nyquist := sampling_rate / 2
      let low_missing : Bool := match low_freq with
        | none => true
        | some v => decide (v ≤ 0)
      if low_missing then
        match high_freq with
        | none => (clean.map some, fail_status "unexpected_error")
        | some hf =>
          if nyquist * (95/100) ≤ hf then
            (clean.map some, fail_status "frequency_too_high")
          else
            run_designed_filter clean "highpass" low_freq high_freq
              [hf / nyquist] order sampling_rate
      else
        match low_freq with
        | some lf =>
          let high_missing_or_nyquist : Bool := match high_freq with
            | none => true
            | some v => decide (nyquist ≤ v)
          if high_missing_or_nyquist then
            if nyquist * (95/100) ≤ lf then
              (clean.map some, fail_status "frequency_too_high")
            else
              run_designed_filter clean "lowpass" low_freq high_freq
                [lf / nyquist] order sampling_rate
          else
            match high_freq with
            | some hf =>
              if hf ≤ lf then (clean.map some, fail_status "invalid_band")
              else
                let hf' := if nyquist * (95/100) ≤ hf then nyquist * (9/10) else hf
                let lf' := if lf ≤ 1/1000 then 5/1000 else lf
                run_designed_filter clean "bandpass" (some lf') (some hf')
                  [lf' / nyquist, hf' / nyquist] order sampling_rate
            | none => (clean.map some, fail_status "unexpected_error")
        | none => (clean.map some, fail_status "unexpected_error")

/-- The data component of `run_designed_filter` is always the cleaned array
(tagged finite): failure paths return it unchanged and the filtfilt model is
length-preserving on it. -/
theorem run_designed_filter_fst (clean : List ℚ) (ftype : String)
    (low_p high_p : Option ℚ) (ws : List ℚ) (order : ℕ) (sampling_rate : ℚ) :
    (run_designed_filter clean ftype low_p high_p ws order sampling_rate).1
      = clean.map some := by
  unfold run_designed_filter filtfilt_model
  dsimp only
  split
  · split <;> split <;> rfl
  · rfl

/-- Under the ≤ 50 % non-finite precondition, the array returned by
`apply_bandpass_filter` is exactly the finite samples of the input (as finite
values): the `empty_data` path returns the empty input and every other
reachable path returns the cleaned array or its (length-preserving) filtered
image. -/
theorem apply_bandpass_filter_fst (data : List (Option ℚ)) (sampling_rate : ℚ)
    (low_freq high_freq : Option ℚ) (order : ℕ)
    (h : data.length ≤ 2 * (finite_values data).length) :
    (apply_bandpass_filter data sampling_rate low_freq high_freq order).1
      = (finite_values data).map some := by
  unfold apply_bandpass_filter
  dsimp only
  split
  · next h0 =>
    rw [List.length_eq_zero] at h0
    subst h0
    rfl
  · split
    · next hbad => omega
    · split
      · split
        · rfl
        · split
          · rfl
          · exact run_designed_filter_fst ..
      · split
        · split
          · split
            · rfl
            · exact run_designed_filter_fst ..
          · split
            · split
              · rfl
              · exact run_designed_filter_fst ..
            · rfl
        · rfl

/-- On an all-finite array the cleaned data is the input's values. -/
theorem finite_values_length_of_all_some (data : List (Option ℚ))
    (h : ∀ o ∈ data, o.isSome) : (finite_values data).length = data.length := by
  unfold finite_values
  induction data with
  | nil => rfl
  | cons o rest ih =>
    have ho : o.isSome := h o (List.mem_cons_self o rest)
    obtain ⟨v, rfl⟩ := Option.isSome_iff_exists.mp ho
    simpa using ih fun x hx => h x (List.mem_cons_of_mem _ hx)

/-- C3 (amended): assuming at most 50 % of the samples are non-finite, the
array returned by `apply_bandpass_filter` consists of the input's *finite*
samples (filtered or not) — its length is the number of finite samples, which
equals `len(x)` only when every sample is finite — and it contains no
non-finite value. -/
theorem apply_bandpass_filter_output_finite (data : List (Option ℚ))
    (sampling_rate : ℚ) (low_freq high_freq : Option ℚ) (order : ℕ)
    (h : data.length ≤ 2 * (finite_values data).length) :
    (apply_bandpass_filter data sampling_rate low_freq high_freq order).1.length
        = (finite_values data).length ∧
    ∀ o ∈ (apply_bandpass_filter data sampling_rate low_freq high_freq order).1,
      o.isSome := by
  rw [apply_bandpass_filter_fst data sampling_rate low_freq high_freq order h]
  constructor
  · exact List.length_map _ _
  · intro o ho
    obtain ⟨v, _, rfl⟩ := List.mem_map.mp ho
    rfl

/-- C3 witness: an all-finite 28-sample array with a valid band keeps its
length and stays finite. -/
theorem apply_bandpass_filter_output_finite_witness :
    (List.replicate 28 (some (1 : ℚ)) : List (Option ℚ)).length
        ≤ 2 * (finite_values (List.replicate 28 (some (1 : ℚ)))).length ∧
    ((apply_bandpass_filter (List.replicate 28 (some (1 : ℚ))) 100 (some 1)
          (some 10) 4).1.length
        = (finite_values (List.replicate 28 (some (1 : ℚ)))).length ∧
      ∀ o ∈ (apply_bandpass_filter (List.replicate 28 (some (1 : ℚ))) 100
          (some 1) (some 10) 4).1, o.isSome) :=
  ⟨by with_unfolding_all decide,
    apply_bandpass_filter_output_finite (List.replicate 28 (some (1 : ℚ))) 100
      (some 1) (some 10) 4 (by with_unfolding_all decide)⟩

/-- C3 counterexample: one non-finite sample among 30 finite ones (well under
50 %) is dropped, so even a successful filtering returns 30 samples for a
31-sample input — length is not preserved. -/
theorem apply_bandpass_filter_length_cex :
    (apply_bandpass_filter (List.replicate 30 (some (1 : ℚ)) ++ [none]) 100
        (some 1) (some 10) 4).2.success = true ∧
    (apply_bandpass_filter (List.replicate 30 (some (1 : ℚ)) ++ [none]) 100
        (some 1) (some 10) 4).1.length = 30 ∧
    (List.replicate 30 (some (1 : ℚ)) ++ [none] : List (Option ℚ)).length = 31 := by
  refine ⟨?_, ?_, ?_⟩ <;> with_unfolding_all decide

/-- C1 counterexample: the call quoted by the spec, `bandpass(x, fs=1.0, 0.1,
0.6)` (on a well-formed 28-sample input), does *not* take the band-pass
branch: `high_freq = 0.6 ≥ nyquist = 0.5`, so the code applies a *low-pass at
0.1 Hz* and reports `parameters.high_freq = 0.6` unchanged — not the claimed
`filter_type = bandpass` with `high_freq` clamped to `0.45`. -/
theorem apply_bandpass_filter_nyquist_cex :
    (apply_bandpass_filter (List.replicate 28 (some (1 : ℚ))) 1 (some (1/10))
        (some (3/5)) 4).2.success = true ∧
    (apply_bandpass_filter (List.replicate 28 (some (1 : ℚ))) 1 (some (1/10))
        (some (3/5)) 4).2.filter_type = some "lowpass" ∧
    (apply_bandpass_filter (List.replicate 28 (some (1 : ℚ))) 1 (some (1/10))
        (some (3/5)) 4).2.high_freq = some (3/5) ∧
    (apply_bandpass_filter (List.replicate 28 (some (1 : ℚ))) 1 (some (1/10))
        (some (3/5)) 4).2.filter_type ≠ some "bandpass" ∧
    (apply_bandpass_filter (List.replicate 28 (some (1 : ℚ))) 1 (some (1/10))
        (some (3/5)) 4).2.high_freq ≠ some (45/100) := by
  refine ⟨?_, ?_, ?_, ?_, ?_⟩ <;> with_unfolding_all decide

/-- C1 (amended): the 0.9·nyquist clamp lives inside the band-pass branch,
which is taken only for `f_hi < fs/2`.  For `0.95·(fs/2) ≤ f_hi < fs/2`, with
`0.001 < f_lo < 0.9·(fs/2)` and an all-finite input longer than
`3·(2·order+1)` samples, the filter succeeds and the status reports
`filter_type = bandpass` with `parameters.high_freq` clamped to `0.9·(fs/2)`.
(For `f_hi ≥ fs/2` — as in the spec's quoted instance — the low-pass branch
applies instead; see the counterexample.) -/
theorem apply_bandpass_filter_nyquist_clamp (data : List (Option ℚ))
    (sampling_rate lf hf : ℚ) (order : ℕ)
    (hfinite : ∀ o ∈ data, o.isSome)
    (hlen : 3 * (2 * order + 1) < data.length)
    (hlo_min : 1/1000 < lf)
    (hlo_max : lf < sampling_rate / 2 * (9/10))
    (hhi_lo : sampling_rate / 2 * (95/100) ≤ hf)
    (hhi_hi : hf < sampling_rate / 2) :
    (apply_bandpass_filter data sampling_rate (some lf) (some hf) order).2
      = { success := true, filter_type := some "bandpass",
          low_freq := some lf, high_freq := some (sampling_rate / 2 * (9/10)),
          order := some order, sampling_rate := some sampling_rate } := by
  have hlf_pos : 0 < lf := lt_trans (by norm_num) hlo_min
  have hnyq_pos : 0 < sampling_rate / 2 := by nlinarith
  have hclean : (finite_values data).length = data.length :=
    finite_values_length_of_all_some data hfinite
  have hne : ¬ data.length = 0 := by omega
  have hnotbad : ¬ 2 * (finite_values data).length < data.length := by omega
  have hlf_lt_hf : lf < hf :=
    lt_of_lt_of_le (by nlinarith) hhi_lo
  unfold apply_bandpass_filter
  dsimp only
  rw [if_neg hne, if_neg hnotbad]
  have hlow_missing : (decide (lf ≤ 0)) = false := by
    simp [not_le.mpr hlf_pos]
  rw [hlow_missing]
  simp only [Bool.false_eq_true, if_false]
  have hhigh_missing : (decide (sampling_rate / 2 ≤ hf)) = false := by
    simp [not_le.mpr hhi_hi]
  rw [hhigh_missing]
  simp only [Bool.false_eq_true, if_false]
  rw [if_neg (not_le.mpr hlf_lt_hf), if_pos hhi_lo, if_neg (not_le.mpr hlo_min)]
  unfold run_designed_filter
  dsimp only
  have h910 : sampling_rate / 2 * (9/10) / (sampling_rate / 2) = 9/10 := by
    rw [mul_comm, mul_div_assoc, div_self hnyq_pos.ne', mul_one]
  have hws : (decide (0 < lf / (sampling_rate / 2) ∧
      lf / (sampling_rate / 2) < sampling_rate / 2 * (9/10) / (sampling_rate / 2) ∧
      sampling_rate / 2 * (9/10) / (sampling_rate / 2) < 1)) = true := by
    rw [decide_eq_true_iff, h910]
    refine ⟨div_pos hlf_pos hnyq_pos, ?_, by norm_num⟩
    rw [div_lt_iff₀ hnyq_pos]
    nlinarith
  rw [hws]
  simp only [if_true, List.length_cons, List.length_nil]
  rw [if_neg (by omega)]

/-- C1 witness: `fs = 1`, band `0.1–0.48` (so `0.475 ≤ f_hi < 0.5`) on 28
finite samples: the clamp fires and the status is
`{success, bandpass, high_freq = 0.45}`. -/
theorem apply_bandpass_filter_nyquist_clamp_witness :
    (∀ o ∈ (List.replicate 28 (some (1 : ℚ)) : List (Option ℚ)), o.isSome) ∧
    3 * (2 * 4 + 1) < (List.replicate 28 (some (1 : ℚ)) : List (Option ℚ)).length ∧
    ((1:ℚ)/1000 < 1/10 ∧ (1:ℚ)/10 < 1 / 2 * (9/10) ∧
      (1:ℚ) / 2 * (95/100) ≤ 48/100 ∧ (48:ℚ)/100 < 1 / 2) ∧
    (apply_bandpass_filter (List.replicate 28 (some (1 : ℚ))) 1 (some (1/10))
        (some (48/100)) 4).2
      = { success := true, filter_type := some "bandpass",
          low_freq := some (1/10), high_freq := some (1 / 2 * (9/10)),
          order := some 4, sampling_rate := some 1 } :=
  ⟨by with_unfolding_all decide, by with_unfolding_all decide,
    ⟨by with_unfolding_all decide, by with_unfolding_all decide,
      by with_unfolding_all decide, by with_unfolding_all decide⟩,
    apply_bandpass_filter_nyquist_clamp (List.replicate 28 (some (1 : ℚ))) 1
      (1/10) (48/100) 4 (by with_unfolding_all decide)
      (by with_unfolding_all decide) (by with_unfolding_all decide)
      (by with_unfolding_all decide) (by with_unfolding_all decide)
      (by with_unfolding_all decide)⟩

/-! ### C2/C9: Ms magnitude (`seismic_processor.py` lines 524-720) -/

/-- `apply_bandpass_filter` on an already-finite array, as called from
`calculate_ms_magnitude` (which passes displacement arrays of floats):
wrap the samples as finite, unwrap the finite result. -/
def bandpassQ (x : List ℚ) (sr lo hi : ℚ) (order : ℕ) :
    List ℚ × FilterStatus :=
  let r := apply_bandpass_filter (x.map some) sr (some lo) (some hi) order
  (finite_values r.1, r.2)

/-- The filtering step of `calculate_ms_magnitude` (lines 587-604): when
`apply_filter` is set, band-pass all three components with the fixed
surface-wave band `low = 0.02`, `high = min(0.5, nyquist*0.9)` and order 4
(the default), *discarding each filter status*; otherwise pass the data
through. -/
def ms_filtered_components (north east vertical : List ℚ) (sr : ℚ)
    (apply_filter : Bool) : List ℚ × List ℚ × List ℚ :=
  if apply_filter then
    let low_freq : ℚ := 1/50
    let high_freq : ℚ := min (1/2) (sr / 2 * (9/10))
    ((bandpassQ north sr low_freq high_freq 4).1,
      (bandpassQ east sr low_freq high_freq 4).1,
      (bandpassQ vertical sr low_freq high_freq 4).1)
  else (north, east, vertical)

/-- `np.max(np.abs(l))` with value 0 for the empty array. -/
def list_max_abs (l : List ℚ) : ℚ := (l.map fun x => |x|).foldr max 0

/-- Per-component peak amplitude in micrometres:
`np.max(np.abs(data)) * 1000 if len(data) > 0 else 0` (lines 607-609). -/
def comp_max_um (l : List ℚ) : ℚ :=
  if 0 < l.length then list_max_abs l * 1000 else 0

/-- The horizontal peak (lines 612-616): with both components present, the
peak of the vector amplitude `sqrt(n² + e²) * 1000` (elementwise; numpy
requires equal shapes, the mismatch case is guarded in
`calculate_ms_magnitude`; length-1 broadcasting is not modelled); otherwise
`max(max_north, max_east)`. -/
noncomputable def ms_horizontal_max (north east : List ℚ) : ℝ :=
  if 0 < north.length ∧ 0 < east.length then
    ((north.zip east).map fun q =>
      Real.sqrt (((q.1 : ℝ)) ^ 2 + ((q.2 : ℝ)) ^ 2) * 1000).foldr max 0
  else ((max (comp_max_um north) (comp_max_um east) : ℚ) : ℝ)

/-- `amplitude_um = max(max_vert, max_horizontal)` (line 619). -/
noncomputable def ms_amplitude_um (north east vertical : List ℚ) : ℝ :=
  max ((comp_max_um vertical : ℚ) : ℝ) (ms_horizontal_max north east)

/-- Python `round(x, 1)` on a real, half up (the source rounds the final
magnitude to one decimal, line 659). -/
noncomputable def py_round1 (x : ℝ) : ℝ := ((⌊x * 10 + 1/2⌋ : ℤ) : ℝ) / 10

/-- Depth truthiness test `earthquake_depth_km and earthquake_depth_km > t`
(lines 572 and 644): present, non-zero and above the threshold. -/
def ms_depth_gt (depth : Option ℚ) (t : ℚ) : Bool :=
  match depth with
  | some d => decide (d ≠ 0 ∧ t < d)
  | none => false

/-- Depth correction (lines 643-646): `-0.0035*(depth-50)` for truthy depth
above 50 km, else 0. -/
def ms_depth_corr (depth : Option ℚ) : ℚ :=
  match depth with
  | some d => if d ≠ 0 ∧ 50 < d then -(7/2000) * (d - 50) else 0
  | none => 0

/-- Short-distance correction factor `(2000 - d)/2000` (line 654). -/
def ms_dist_factor (distance_km : ℚ) : ℚ :=
  if distance_km < 2000 then (2000 - distance_km) / 2000 else 0

/-- Short-distance correction `0.3 * factor` for `d < 2000` (line 655). -/
def ms_dist_corr (distance_km : ℚ) : ℚ :=
  if distance_km < 2000 then 3/10 * ms_dist_factor distance_km else 0

/-- A validation issue; only the machine-readable `type` key (`itype` here) is
modelled, the Danish message/detail strings are display-only. -/
structure MsIssue where
  itype : String
deriving DecidableEq

/-- The error dict of a failed Ms computation (reduced to its `reason`). -/
structure MsError where
  reason : String
deriving DecidableEq

/-- The validation issues collected in lines 556-578: short distance
(< 2000 km), long distance (> 16000 km), deep event (truthy depth > 60 km).
No issue is ever recorded for a failed internal filter. -/
def ms_validation_issues (distance_km : ℚ) (depth : Option ℚ) : List MsIssue :=
  (if distance_km < 2000 then [{ itype := "distance" }] else []) ++
    (if 16000 < distance_km then [{ itype := "distance" }] else []) ++
      (if ms_depth_gt depth 60 then [{ itype := "depth" }] else [])

/-- The Ms explanation record (lines 662-710), with the display strings and
the real-valued calculation terms kept as semantic fields. -/
structure MsOutput where
  magnitude : ℝ
  used_component : String
  amp_north : ℚ
  amp_east : ℚ
  amp_vertical : ℚ
  amp_horizontal : ℝ
  amp_used : ℝ
  period : ℚ
  period_is_standard : Bool
  distance_km : ℚ
  distance_deg : ℚ
  sampling_rate : ℚ
  filter_applied : Bool
  filter_low : Option ℚ
  filter_high : Option ℚ
  filter_nyquist : Option ℚ
  center_freq : Option ℚ
  log_amp_period : ℝ
  log_distance : ℝ
  distance_term : ℝ
  raw_result : ℝ
  depth_correction_applied : Bool
  depth_km : Option ℚ
  depth_correction : ℚ
  distance_correction_applied : Bool
  distance_correction : ℚ
  distance_factor : ℚ
  issues : List MsIssue
  requires_correction : Bool
  is_standard_compliant : Bool

open Classical in
/-- The successful-path output of `calculate_ms_magnitude` (lines 580-710):
amplitudes from the (possibly filtered) components, the IASPEI 2013 formula
`log10(A/T) + 1.66*log10(Δ) + 3.3` with `Δ = d/111.195`, depth and
short-distance corrections, rounded to one decimal; plus the fully populated
explanation record. -/
noncomputable def ms_output (north east vertical : List ℚ)
    (distance_km sampling_rate period : ℚ) (earthquake_depth_km : Option ℚ)
    (apply_filter : Bool) : MsOutput :=
  let c := ms_filtered_components north east vertical sampling_rate apply_filter
  let max_north := comp_max_um c.1
  let max_east := comp_max_um c.2.1
  let max_vert := comp_max_um c.2.2
  let max_horizontal := ms_horizontal_max c.1 c.2.1
  let amplitude_um : ℝ := ms_amplitude_um c.1 c.2.1 c.2.2
  let used_component :=
    if max_horizontal ≤ ((max_vert : ℚ) : ℝ) then "vertikal" else "horizontal"
  let distance_deg : ℚ := distance_km / (22239/200)
  let log_amp_over_period := Real.logb 10 (amplitude_um / (period : ℝ))
  let log_distance := Real.logb 10 ((distance_deg : ℚ) : ℝ)
  let distance_term := (166/100 : ℝ) * log_distance
  let issues := ms_validation_issues distance_km earthquake_depth_km
  { magnitude := py_round1 (log_amp_over_period + distance_term + (33/10 : ℝ)
      + ((ms_depth_corr earthquake_depth_km : ℚ) : ℝ)
      + ((ms_dist_corr distance_km : ℚ) : ℝ))
    used_component := used_component
    amp_north := max_north
    amp_east := max_east
    amp_vertical := max_vert
    amp_horizontal := max_horizontal
    amp_used := amplitude_um
    period := period
    period_is_standard := decide (period = 20)
    distance_km := distance_km
    distance_deg := distance_deg
    sampling_rate := sampling_rate
    filter_applied := apply_filter
    filter_low := if apply_filter then some (1/50) else none
    filter_high :=
      if apply_filter then some (min (1/2) (sampling_rate / 2 * (9/10))) else none
    filter_nyquist := if apply_filter then some (sampling_rate / 2) else none
    center_freq := if apply_filter then some (1 / period) else none
    log_amp_period := log_amp_over_period
    log_distance := log_distance
    distance_term := distance_term
    raw_result := log_amp_over_period + distance_term + (33/10 : ℝ)
    depth_correction_applied := decide (ms_depth_corr earthquake_depth_km ≠ 0)
    depth_km := earthquake_depth_km
    depth_correction := ms_depth_corr earthquake_depth_km
    distance_correction_applied := decide (0 < ms_dist_corr distance_km)
    distance_correction := ms_dist_corr distance_km
    distance_factor := ms_dist_factor distance_km
    issues := issues
    requires_correction :=
      decide (distance_km < 2000) || ms_depth_gt earthquake_depth_km 60
    is_standard_compliant := issues.isEmpty }

open Classical in
/-- `calculate_ms_magnitude` (seismic_processor.py lines 524-720): the fatal
checks in source order — distance < 200 km (line 549), nyquist < 0.5 Hz when
filtering (line 589), the numpy shape mismatch of the horizontal vector sum
(line 613, surfacing through the outer `except` as a generic calculation
error), zero peak amplitude (line 622) — then the successful output.  The
internal filter calls discard their status (`_`), so a failed band-pass
leaves the data unfiltered and is recorded nowhere. -/
noncomputable def calculate_ms_magnitude (north east vertical : List ℚ)
    (distance_km sampling_rate period : ℚ) (earthquake_depth_km : Option ℚ)
    (apply_filter : Bool) : Except MsError MsOutput :=
  if distance_km < 200 then .error ⟨"distance_too_short"⟩
  else if apply_filter ∧ sampling_rate / 2 < 1/2 then
    .error ⟨"sampling_rate_too_low"⟩
  else
    let c := ms_filtered_components north east vertical sampling_rate apply_filter
    if 0 < c.1.length ∧ 0 < c.2.1.length ∧ c.1.length ≠ c.2.1.length then
      .error ⟨"calculation_error"⟩
    else if ms_amplitude_um c.1 c.2.1 c.2.2 = 0 then .error ⟨"no_amplitude"⟩
    else .ok (ms_output north east vertical distance_km sampling_rate period
      earthquake_depth_km apply_filter)

/-- The magnitude as an optional value (`None` on the error paths). -/
noncomputable def ms_value (north east vertical : List ℚ)
    (distance_km sampling_rate period : ℚ) (earthquake_depth_km : Option ℚ)
    (apply_filter : Bool) : Option ℝ :=
  match calculate_ms_magnitude north east vertical distance_km sampling_rate
    period earthquake_depth_km apply_filter with
  | .ok o => some o.magnitude
  | .error _ => none

/-- Success conditions: when the distance check, the nyquist check, the shape
guard and the amplitude check all pass, `calculate_ms_magnitude` returns the
`ms_output` record. -/
theorem calculate_ms_magnitude_ok (north east vertical : List ℚ)
    (distance_km sampling_rate period : ℚ) (earthquake_depth_km : Option ℚ)
    (apply_filter : Bool)
    (h200 : 200 ≤ distance_km)
    (hsr : apply_filter = true → 1 ≤ sampling_rate)
    (hshape : ¬ (0 < (ms_filtered_components north east vertical sampling_rate
          apply_filter).1.length ∧
        0 < (ms_filtered_components north east vertical sampling_rate
          apply_filter).2.1.length ∧
        (ms_filtered_components north east vertical sampling_rate
          apply_filter).1.length ≠
          (ms_filtered_components north east vertical sampling_rate
            apply_filter).2.1.length))
    (hamp : ms_amplitude_um
        (ms_filtered_components north east vertical sampling_rate apply_filter).1
        (ms_filtered_components north east vertical sampling_rate apply_filter).2.1
        (ms_filtered_components north east vertical sampling_rate apply_filter).2.2
        ≠ 0) :
    calculate_ms_magnitude north east vertical distance_km sampling_rate period
        earthquake_depth_km apply_filter
      = .ok (ms_output north east vertical distance_km sampling_rate period
        earthquake_depth_km apply_filter) := by
  unfold calculate_ms_magnitude
  rw [if_neg (not_lt.mpr h200)]
  rw [if_neg (by
    rintro ⟨hf, hlt⟩
    have := hsr hf
    rw [lt_div_iff₀ (by norm_num : (0:ℚ) < 2)] at hlt
    linarith)]
  dsimp only
  rw [if_neg hshape, if_neg hamp]

/-- Validation issues carry only the `distance` and `depth` types; in
particular no issue ever records a filter failure. -/
theorem ms_validation_issues_types (distance_km : ℚ) (depth : Option ℚ) :
    ∀ i ∈ ms_validation_issues distance_km depth,
      i.itype = "distance" ∨ i.itype = "depth" := by
  intro i hi
  unfold ms_validation_issues at hi
  rcases List.mem_append.mp hi with h1 | h2
  · rcases List.mem_append.mp h1 with h3 | h4
    · left
      split at h3 <;> simp_all
    · left
      split at h4 <;> simp_all
  · right
    split at h2 <;> simp_all

/-- C9: with `apply_filter=true` and any inputs on which the computation
succeeds, even when the internal surface-wave band-pass fails on the vertical
component (returning the data unchanged with `success=false`),
`calculate_ms_magnitude` proceeds silently with the unfiltered data and the
explanation still reports `filter.applied = true`; no validation issue
records the filter failure (all issues are of type `distance` or `depth`). -/
theorem calculate_ms_silently_ignores_filter_failure
    (north east vertical : List ℚ) (distance_km sampling_rate period : ℚ)
    (earthquake_depth_km : Option ℚ)
    (h200 : 200 ≤ distance_km)
    (hsr : 1 ≤ sampling_rate)
    (hfail : (bandpassQ vertical sampling_rate (1/50)
        (min (1/2) (sampling_rate / 2 * (9/10))) 4).2.success = false)
    (hshape : ¬ (0 < (ms_filtered_components north east vertical sampling_rate
          true).1.length ∧
        0 < (ms_filtered_components north east vertical sampling_rate
          true).2.1.length ∧
        (ms_filtered_components north east vertical sampling_rate
          true).1.length ≠
          (ms_filtered_components north east vertical sampling_rate
            true).2.1.length))
    (hamp : ms_amplitude_um
        (ms_filtered_components north east vertical sampling_rate true).1
        (ms_filtered_components north east vertical sampling_rate true).2.1
        (ms_filtered_components north east vertical sampling_rate true).2.2
        ≠ 0) :
    ∃ out, calculate_ms_magnitude north east vertical distance_km sampling_rate
        period earthquake_depth_km true = .ok out ∧
      out.filter_applied = true ∧
      ∀ i ∈ out.issues, i.itype = "distance" ∨ i.itype = "depth" := by
  refine ⟨ms_output north east vertical distance_km sampling_rate period
      earthquake_depth_km true,
    calculate_ms_magnitude_ok north east vertical distance_km sampling_rate
      period earthquake_depth_km true h200 (fun _ => hsr) hshape hamp, ?_, ?_⟩
  · rfl
  · have hiss : (ms_output north east vertical distance_km sampling_rate period
        earthquake_depth_km true).issues
        = ms_validation_issues distance_km earthquake_depth_km := rfl
    rw [hiss]
    exact ms_validation_issues_types distance_km earthquake_depth_km

/-- The amplitude of the C9/C2 witness configuration (`N = E = []`,
`Z = [7]`, unfiltered or with the failing 1-sample filter that returns the
data unchanged) is 7000 μm, in particular non-zero. -/
theorem ms_amplitude_um_single_seven :
    ms_amplitude_um ([] : List ℚ) ([] : List ℚ) [7] = ((7000 : ℚ) : ℝ) := by
  have h1 : comp_max_um [(7 : ℚ)] = 7000 := by
    simp [comp_max_um, list_max_abs, max_def, abs]
    norm_num
  have h2 : comp_max_um ([] : List ℚ) = 0 := by simp [comp_max_um]
  unfold ms_amplitude_um ms_horizontal_max
  rw [if_neg (by simp), h1, h2]
  rw [max_eq_left]
  · norm_num

/-- C9 witness: `N = E = []`, `Z = [7]` (one sample — far below filtfilt's
padlen, so the internal band-pass fails with `filter_error` and returns the
data unchanged), distance 300 km, 100 Hz, `T = 20`, filter on: the Ms
computation succeeds, reports `filter.applied = true`, and carries only the
short-distance validation issue. -/
theorem calculate_ms_silently_ignores_filter_failure_witness :
    ((200:ℚ) ≤ 300 ∧ (1:ℚ) ≤ 100 ∧
      (bandpassQ [7] 100 (1/50) (min (1/2) ((100:ℚ) / 2 * (9/10))) 4).2.success
        = false) ∧
    ∃ out, calculate_ms_magnitude [] [] [7] 300 100 20 none true = .ok out ∧
      out.filter_applied = true ∧
      ∀ i ∈ out.issues, i.itype = "distance" ∨ i.itype = "depth" := by
  have hmin : min (1/2 : ℚ) ((100:ℚ) / 2 * (9/10)) = 1/2 := by norm_num
  have hfail : (bandpassQ [7] 100 (1/50)
      (min (1/2) ((100:ℚ) / 2 * (9/10))) 4).2.success = false := by
    rw [hmin]
    with_unfolding_all decide
  have hfc : ms_filtered_components [] [] [7] 100 true = ([], [], [7]) := by
    unfold ms_filtered_components bandpassQ
    rw [if_pos rfl]
    dsimp only
    rw [hmin]
    with_unfolding_all decide
  refine ⟨⟨by norm_num, by norm_num, hfail⟩, ?_⟩
  refine calculate_ms_silently_ignores_filter_failure [] [] [7] 300 100 20 none
    (by norm_num) (by norm_num) hfail ?_ ?_
  · rw [hfc]
    simp
  · rw [hfc]
    rw [ms_amplitude_um_single_seven]
    norm_num

/-- `round(x, 1)` is monotone. -/
theorem py_round1_mono {x y : ℝ} (h : x ≤ y) : py_round1 x ≤ py_round1 y := by
  unfold py_round1
  have hfl : ⌊x * 10 + 1/2⌋ ≤ ⌊y * 10 + 1/2⌋ :=
    Int.floor_le_floor (by nlinarith)
  have hc : ((⌊x * 10 + 1/2⌋ : ℤ) : ℝ) ≤ ((⌊y * 10 + 1/2⌋ : ℤ) : ℝ) := by
    exact_mod_cast hfl
  linarith

/-- The magnitude field of a successful Ms output, written with the named
correction terms. -/
theorem ms_output_magnitude (north east vertical : List ℚ) (d sr T : ℚ)
    (dep : Option ℚ) (f : Bool) :
    (ms_output north east vertical d sr T dep f).magnitude
      = py_round1 (Real.logb 10 (ms_amplitude_um
            (ms_filtered_components north east vertical sr f).1
            (ms_filtered_components north east vertical sr f).2.1
            (ms_filtered_components north east vertical sr f).2.2 / (T : ℝ))
          + (166/100 : ℝ) * Real.logb 10 (((d / (22239/200) : ℚ) : ℝ))
          + (33/10 : ℝ) + ((ms_depth_corr dep : ℚ) : ℝ)
          + ((ms_dist_corr d : ℚ) : ℝ)) := by
  dsimp only [ms_output, ms_amplitude_um]

/-- On success `ms_value` is the output's magnitude. -/
theorem ms_value_ok (north east vertical : List ℚ)
    (distance_km sampling_rate period : ℚ) (dep : Option ℚ) (f : Bool)
    (h200 : 200 ≤ distance_km)
    (hsr : f = true → 1 ≤ sampling_rate)
    (hshape : ¬ (0 < (ms_filtered_components north east vertical sampling_rate
          f).1.length ∧
        0 < (ms_filtered_components north east vertical sampling_rate
          f).2.1.length ∧
        (ms_filtered_components north east vertical sampling_rate f).1.length ≠
          (ms_filtered_components north east vertical sampling_rate
            f).2.1.length))
    (hamp : ms_amplitude_um
        (ms_filtered_components north east vertical sampling_rate f).1
        (ms_filtered_components north east vertical sampling_rate f).2.1
        (ms_filtered_components north east vertical sampling_rate f).2.2 ≠ 0) :
    ms_value north east vertical distance_km sampling_rate period dep f
      = some ((ms_output north east vertical distance_km sampling_rate period
          dep f).magnitude) := by
  unfold ms_value
  rw [calculate_ms_magnitude_ok north east vertical distance_km sampling_rate
    period dep f h200 hsr hshape hamp]

/-- The depth correction is antitone above 50 km. -/
theorem ms_depth_corr_anti {d1 d2 : ℚ} (h1 : 50 < d1) (h12 : d1 ≤ d2) :
    ms_depth_corr (some d2) ≤ ms_depth_corr (some d1) := by
  unfold ms_depth_corr
  dsimp only
  rw [if_pos ⟨ne_of_gt (show (0:ℚ) < d2 by linarith), by linarith⟩,
    if_pos ⟨ne_of_gt (show (0:ℚ) < d1 by linarith), h1⟩]
  linarith

/-- The distance part of the Ms formula is monotone non-decreasing on
`[200, 2000]` km: the `1.66·log10(Δ)` term grows by at least
`1.66/(2000·log 10) > 0.0003` per km while the short-distance correction
shrinks by only `0.3/2000 = 0.00015` per km. -/
theorem ms_distance_term_mono (d1 d2 : ℚ) (h1 : 200 ≤ d1) (h12 : d1 ≤ d2)
    (h2 : d2 ≤ 2000) :
    (166/100 : ℝ) * Real.logb 10 (((d1 / (22239/200) : ℚ) : ℝ))
        + ((ms_dist_corr d1 : ℚ) : ℝ)
      ≤ (166/100 : ℝ) * Real.logb 10 (((d2 / (22239/200) : ℚ) : ℝ))
        + ((ms_dist_corr d2 : ℚ) : ℝ) := by
  have hd1q : (0:ℚ) < d1 := by linarith
  have hd2q : (0:ℚ) < d2 := by linarith
  have hd1 : (0:ℝ) < (d1:ℝ) := by exact_mod_cast hd1q
  have hd2 : (0:ℝ) < (d2:ℝ) := by exact_mod_cast hd2q
  have h12r : (d1:ℝ) ≤ (d2:ℝ) := by exact_mod_cast h12
  have h2r : (d2:ℝ) ≤ 2000 := by exact_mod_cast h2
  have hcast1 : ((d1 / (22239/200) : ℚ) : ℝ) = (d1:ℝ) / (22239/200) := by
    push_cast
    ring
  have hcast2 : ((d2 / (22239/200) : ℚ) : ℝ) = (d2:ℝ) / (22239/200) := by
    push_cast
    ring
  have hcorr : ∀ d : ℚ, 200 ≤ d → d ≤ 2000 →
      ms_dist_corr d = 3/10 * ((2000 - d)/2000) := by
    intro d hd hd'
    unfold ms_dist_corr ms_dist_factor
    by_cases hc : d < 2000
    · rw [if_pos hc, if_pos hc]
    · have he : d = 2000 := le_antisymm hd' (not_lt.mp hc)
      subst he
      norm_num
  rw [hcast1, hcast2, hcorr d1 h1 (le_trans h12 h2), hcorr d2 (le_trans h1 h12) h2]
  have hlog10 : (0:ℝ) < Real.log 10 := Real.log_pos (by norm_num)
  have hub : Real.log 10 ≤ 2.7725887232 := by
    have h16 : Real.log 10 ≤ Real.log 16 :=
      Real.log_le_log (by norm_num) (by norm_num)
    have h4 : Real.log 16 = 4 * Real.log 2 := by
      rw [show (16:ℝ) = 2^4 by norm_num, Real.log_pow]
      push_cast
      ring
    have h2l : Real.log 2 < 0.6931471808 := Real.log_two_lt_d9
    rw [h4] at h16
    linarith
  have hlogratio : ((d2:ℝ) - d1) / 2000 ≤ Real.log ((d2:ℝ) / (d1:ℝ)) := by
    have hpos : (0:ℝ) < (d1:ℝ)/(d2:ℝ) := div_pos hd1 hd2
    have hle := Real.log_le_sub_one_of_pos hpos
    have hlogdiv1 : Real.log ((d1:ℝ)/(d2:ℝ))
        = Real.log (d1:ℝ) - Real.log (d2:ℝ) := Real.log_div hd1.ne' hd2.ne'
    have hlogdiv2 : Real.log ((d2:ℝ)/(d1:ℝ))
        = Real.log (d2:ℝ) - Real.log (d1:ℝ) := Real.log_div hd2.ne' hd1.ne'
    have hstep : ((d2:ℝ) - d1)/2000 ≤ ((d2:ℝ) - d1)/(d2:ℝ) :=
      div_le_div_of_nonneg_left (by linarith) hd2 h2r
    have hfrac : ((d2:ℝ) - d1)/(d2:ℝ) = 1 - (d1:ℝ)/(d2:ℝ) := by
      field_simp
    linarith
  have hkey : (3/20000) * ((d2:ℝ) - d1) * Real.log 10
      ≤ (166/100) * Real.log ((d2:ℝ)/(d1:ℝ)) := by
    have hΔnn : (0:ℝ) ≤ (d2:ℝ) - d1 := by linarith
    nlinarith [mul_le_mul_of_nonneg_left hub
        (mul_nonneg (by norm_num : (0:ℝ) ≤ 3/20000) hΔnn),
      mul_le_mul_of_nonneg_left hlogratio (by norm_num : (0:ℝ) ≤ 166/100)]
  have hkey2 : (3/20000) * ((d2:ℝ) - d1)
      ≤ (166/100) * (Real.log ((d2:ℝ)/(d1:ℝ)) / Real.log 10) := by
    rw [mul_div_assoc', le_div_iff₀ hlog10]
    linarith
  simp only [Real.logb]
  have ha : Real.log ((d2:ℝ)/(22239/200)) - Real.log ((d1:ℝ)/(22239/200))
      = Real.log ((d2:ℝ)/(d1:ℝ)) := by
    rw [Real.log_div hd2.ne' (by norm_num), Real.log_div hd1.ne' (by norm_num),
      Real.log_div hd2.ne' hd1.ne']
    ring
  have hsplit : (166/100 : ℝ) * (Real.log ((d2:ℝ)/(22239/200)) / Real.log 10)
        - (166/100 : ℝ) * (Real.log ((d1:ℝ)/(22239/200)) / Real.log 10)
      = (166/100 : ℝ) * (Real.log ((d2:ℝ)/(d1:ℝ)) / Real.log 10) := by
    rw [← ha]
    ring
  push_cast
  linarith

/-- C2 (amended): holding all other arguments fixed (with the computation
succeeding: distance ≥ 200 km, adequate sampling rate when filtering, equal
horizontal shapes, non-zero amplitude), Ms is monotonically non-increasing in
depth for depths above 50 km, but monotonically non-*decreasing* — not
non-increasing — in distance on `[200, 2000]` km: the `1.66·log10(Δ)` growth
dominates the 0.3-unit short-distance correction. -/
theorem ms_monotone_in_depth_and_distance :
    (∀ (north east vertical : List ℚ) (distance_km sampling_rate period : ℚ)
        (dep1 dep2 : ℚ) (f : Bool),
      200 ≤ distance_km → (f = true → 1 ≤ sampling_rate) →
      (¬ (0 < (ms_filtered_components north east vertical sampling_rate
            f).1.length ∧
          0 < (ms_filtered_components north east vertical sampling_rate
            f).2.1.length ∧
          (ms_filtered_components north east vertical sampling_rate f).1.length
            ≠ (ms_filtered_components north east vertical sampling_rate
              f).2.1.length)) →
      ms_amplitude_um
          (ms_filtered_components north east vertical sampling_rate f).1
          (ms_filtered_components north east vertical sampling_rate f).2.1
          (ms_filtered_components north east vertical sampling_rate f).2.2
        ≠ 0 →
      50 < dep1 → dep1 ≤ dep2 →
      ∃ m1 m2,
        ms_value north east vertical distance_km sampling_rate period
          (some dep1) f = some m1 ∧
        ms_value north east vertical distance_km sampling_rate period
          (some dep2) f = some m2 ∧
        m2 ≤ m1) ∧
    (∀ (north east vertical : List ℚ) (d1 d2 sampling_rate period : ℚ)
        (dep : Option ℚ) (f : Bool),
      200 ≤ d1 → d1 ≤ d2 → d2 ≤ 2000 → (f = true → 1 ≤ sampling_rate) →
      (¬ (0 < (ms_filtered_components north east vertical sampling_rate
            f).1.length ∧
          0 < (ms_filtered_components north east vertical sampling_rate
            f).2.1.length ∧
          (ms_filtered_components north east vertical sampling_rate f).1.length
            ≠ (ms_filtered_components north east vertical sampling_rate
              f).2.1.length)) →
      ms_amplitude_um
          (ms_filtered_components north east vertical sampling_rate f).1
          (ms_filtered_components north east vertical sampling_rate f).2.1
          (ms_filtered_components north east vertical sampling_rate f).2.2
        ≠ 0 →
      ∃ m1 m2,
        ms_value north east vertical d1 sampling_rate period dep f = some m1 ∧
        ms_value north east vertical d2 sampling_rate period dep f = some m2 ∧
        m1 ≤ m2) := by
  constructor
  · intro north east vertical distance_km sampling_rate period dep1 dep2 f
      h200 hsr hshape hamp hdep1 hdep12
    refine ⟨_, _,
      ms_value_ok north east vertical distance_km sampling_rate period
        (some dep1) f h200 hsr hshape hamp,
      ms_value_ok north east vertical distance_km sampling_rate period
        (some dep2) f h200 hsr hshape hamp, ?_⟩
    rw [ms_output_magnitude, ms_output_magnitude]
    apply py_round1_mono
    have hanti := ms_depth_corr_anti hdep1 hdep12
    have hcast : ((ms_depth_corr (some dep2) : ℚ) : ℝ)
        ≤ ((ms_depth_corr (some dep1) : ℚ) : ℝ) := by exact_mod_cast hanti
    linarith
  · intro north east vertical d1 d2 sampling_rate period dep f
      h1 h12 h2 hsr hshape hamp
    refine ⟨_, _,
      ms_value_ok north east vertical d1 sampling_rate period dep f h1 hsr
        hshape hamp,
      ms_value_ok north east vertical d2 sampling_rate period dep f
        (le_trans h1 h12) hsr hshape hamp, ?_⟩
    rw [ms_output_magnitude, ms_output_magnitude]
    apply py_round1_mono
    have hmono := ms_distance_term_mono d1 d2 h1 h12 h2
    linarith

/-- Shifting the argument by 1.39 raises the rounded value by at least 1.3. -/
theorem py_round1_shift (x : ℝ) : py_round1 x + 13/10 ≤ py_round1 (x + 139/100) := by
  unfold py_round1
  have harg : (x + 139/100) * 10 + 1/2 = (x * 10 + 1/2 + 9/10) + (13 : ℤ) := by
    push_cast
    ring
  have hfl : ⌊(x + 139/100) * 10 + 1/2⌋ = ⌊x * 10 + 1/2 + 9/10⌋ + 13 := by
    rw [harg, Int.floor_add_int]
  have hmono : ⌊x * 10 + 1/2⌋ ≤ ⌊x * 10 + 1/2 + 9/10⌋ :=
    Int.floor_le_floor (by linarith)
  have hc : ((⌊x * 10 + 1/2⌋ : ℤ) : ℝ) + 13
      ≤ ((⌊(x + 139/100) * 10 + 1/2⌋ : ℤ) : ℝ) := by
    rw [hfl]
    push_cast
    have : ((⌊x * 10 + 1/2⌋ : ℤ) : ℝ) ≤ ((⌊x * 10 + 1/2 + 9/10⌋ : ℤ) : ℝ) := by
      exact_mod_cast hmono
    linarith
  linarith

/-- C2 counterexample: with the identical synthetic record (`Z = [7]` mm,
`T = 20 s`, no depth, filter off), the Ms at 2000 km exceeds the Ms at
200 km: the log-distance term grows by `1.66·log10(10) = 1.66` while the
short-distance correction only drops by `0.27`, so Ms is *not* non-increasing
in distance on `[0, 2000]` km. -/
theorem ms_distance_not_nonincreasing_cex :
    ∃ m1 m2, ms_value [] [] [7] 200 100 20 none false = some m1 ∧
      ms_value [] [] [7] 2000 100 20 none false = some m2 ∧ m1 < m2 := by
  have hfc : ms_filtered_components [] [] [7] 100 false = ([], [], [7]) := rfl
  have hshape : ¬ (0 < (ms_filtered_components [] [] [7] 100 false).1.length ∧
      0 < (ms_filtered_components [] [] [7] 100 false).2.1.length ∧
      (ms_filtered_components [] [] [7] 100 false).1.length ≠
        (ms_filtered_components [] [] [7] 100 false).2.1.length) := by
    rw [hfc]
    simp
  have hamp : ms_amplitude_um (ms_filtered_components [] [] [7] 100 false).1
      (ms_filtered_components [] [] [7] 100 false).2.1
      (ms_filtered_components [] [] [7] 100 false).2.2 ≠ 0 := by
    rw [hfc, ms_amplitude_um_single_seven]
    norm_num
  refine ⟨_, _,
    ms_value_ok [] [] [7] 200 100 20 none false (by norm_num) (by simp)
      hshape hamp,
    ms_value_ok [] [] [7] 2000 100 20 none false (by norm_num) (by simp)
      hshape hamp, ?_⟩
  rw [ms_output_magnitude, ms_output_magnitude]
  have hd1 : ((ms_dist_corr 200 : ℚ) : ℝ) = 27/100 := by
    norm_num [ms_dist_corr, ms_dist_factor]
  have hd2 : ((ms_dist_corr 2000 : ℚ) : ℝ) = 0 := by
    norm_num [ms_dist_corr, ms_dist_factor]
  have hdep : ((ms_depth_corr none : ℚ) : ℝ) = 0 := by
    norm_num [ms_depth_corr]
  have hlogsplit : Real.logb 10 (((2000 / (22239/200) : ℚ) : ℝ))
      = 1 + Real.logb 10 (((200 / (22239/200) : ℚ) : ℝ)) := by
    have hq : ((2000 / (22239/200) : ℚ) : ℝ)
        = 10 * ((200 / (22239/200) : ℚ) : ℝ) := by
      push_cast
      ring
    rw [hq, Real.logb_mul (by norm_num) (by push_cast; norm_num),
      Real.logb_self_eq_one (by norm_num)]
  rw [hd1, hd2, hdep, hlogsplit]
  have hsh := py_round1_shift (Real.logb 10 (ms_amplitude_um
      (ms_filtered_components [] [] [7] 100 false).1
      (ms_filtered_components [] [] [7] 100 false).2.1
      (ms_filtered_components [] [] [7] 100 false).2.2 / ((20 : ℚ) : ℝ))
    + (166/100 : ℝ) * Real.logb 10 (((200 / (22239/200) : ℚ) : ℝ))
    + (33/10 : ℝ) + 0 + (27/100 : ℝ))
  have heq : py_round1 (Real.logb 10 (ms_amplitude_um
        (ms_filtered_components [] [] [7] 100 false).1
        (ms_filtered_components [] [] [7] 100 false).2.1
        (ms_filtered_components [] [] [7] 100 false).2.2 / ((20 : ℚ) : ℝ))
      + (166/100 : ℝ) * (1 + Real.logb 10 (((200 / (22239/200) : ℚ) : ℝ)))
      + (33/10 : ℝ) + 0 + 0)
      = py_round1 ((Real.logb 10 (ms_amplitude_um
        (ms_filtered_components [] [] [7] 100 false).1
        (ms_filtered_components [] [] [7] 100 false).2.1
        (ms_filtered_components [] [] [7] 100 false).2.2 / ((20 : ℚ) : ℝ))
      + (166/100 : ℝ) * Real.logb 10 (((200 / (22239/200) : ℚ) : ℝ))
      + (33/10 : ℝ) + 0 + (27/100 : ℝ)) + 139/100) := by
    congr 1
    ring
  rw [heq]
  linarith

/-- C2 witness: concrete instances of both monotonicity directions
(`Z = [7]`, 100 Hz, `T = 20`, filter off): depths 60 ≤ 70 km at 300 km give
`Ms(70) ≤ Ms(60)`; distances 300 ≤ 400 km give `Ms(300) ≤ Ms(400)`. -/
theorem ms_monotone_in_depth_and_distance_witness :
    ((200:ℚ) ≤ 300 ∧ (50:ℚ) < 60 ∧ (60:ℚ) ≤ 70 ∧
      ∃ m1 m2, ms_value [] [] [7] 300 100 20 (some 60) false = some m1 ∧
        ms_value [] [] [7] 300 100 20 (some 70) false = some m2 ∧ m2 ≤ m1) ∧
    ((200:ℚ) ≤ 300 ∧ (300:ℚ) ≤ 400 ∧ (400:ℚ) ≤ 2000 ∧
      ∃ m1 m2, ms_value [] [] [7] 300 100 20 none false = some m1 ∧
        ms_value [] [] [7] 400 100 20 none false = some m2 ∧ m1 ≤ m2) := by
  have hfc : ms_filtered_components [] [] [7] 100 false = ([], [], [7]) := rfl
  have hshape : ¬ (0 < (ms_filtered_components [] [] [7] 100 false).1.length ∧
      0 < (ms_filtered_components [] [] [7] 100 false).2.1.length ∧
      (ms_filtered_components [] [] [7] 100 false).1.length ≠
        (ms_filtered_components [] [] [7] 100 false).2.1.length) := by
    rw [hfc]
    simp
  have hamp : ms_amplitude_um (ms_filtered_components [] [] [7] 100 false).1
      (ms_filtered_components [] [] [7] 100 false).2.1
      (ms_filtered_components [] [] [7] 100 false).2.2 ≠ 0 := by
    rw [hfc, ms_amplitude_um_single_seven]
    norm_num
  refine ⟨⟨by norm_num, by norm_num, by norm_num, ?_⟩,
    ⟨by norm_num, by norm_num, by norm_num, ?_⟩⟩
  · exact ms_monotone_in_depth_and_distance.1 [] [] [7] 300 100 20 60 70 false
      (by norm_num) (by simp) hshape hamp (by norm_num) (by norm_num)
  · exact ms_monotone_in_depth_and_distance.2 [] [] [7] 300 400 100 20 none
      false (by norm_num) (by norm_num) (by norm_num) (by simp) hshape hamp
